import Mathlib

/-!
Shallow embedding of the platform-detector repository (dfsol/platform-detector).

The detector core (src/detector.ts) is embedded as pure Lean functions over an
explicit `Env` record that carries every ambient browser fact the TypeScript
code reads (window/navigator/document globals, display-mode media-query
results, presence of platform bridge objects, and the observable outputs of
the tma-sdk module's global-reading getters).  The payload verifier
(src/telegram-init-data.ts) is embedded as a total function parameterised by
the two environment-provided primitives it calls: the Web-Crypto HMAC-SHA256
operation (an `Option`-valued function, `none` modelling an environment where
crypto.subtle is unavailable) and JSON.parse.

Machine numbers are modelled as Int/Nat; strings as Lean String (JS
toLowerCase / substring tests agree with the Lean ones on the ASCII inputs the
code manipulates).  JavaScript truthiness on optional strings/objects is made
explicit via the js-prefixed helpers below.
-/

/-- Truthiness of a JS string-or-undefined value: undefined, null and the
empty string are falsy. -/
def jsTruthyS (s : Option String) : Bool :=
  match s with
  | none => false
  | some s => s ≠ ""

/-- JS expression `a || b` for an optional string `a` with a string default:
falls through to `b` when `a` is undefined or empty. -/
def jsOrS (a : Option String) (b : String) : String :=
  match a with
  | none => b
  | some s => if s = "" then b else s

/-- Character-list prefix test used by the substring helper. -/
def startsWithChars : List Char → List Char → Bool
  | [], _ => true
  | _ :: _, [] => false
  | p :: ps, c :: cs => p = c && startsWithChars ps cs

/-- Character-list substring occurrence test. -/
def infixChars (pat : List Char) : List Char → Bool
  | [] => pat.isEmpty
  | c :: rest => startsWithChars pat (c :: rest) || infixChars pat rest

/-- Substring test: JS `/pat/.test(s)` for a literal pattern `pat`. -/
def containsStr (s pat : String) : Bool :=
  infixChars pat.toList s.toList

/-- JS String.prototype.startsWith. -/
def strStartsWith (s pre : String) : Bool :=
  startsWithChars pre.toList s.toList

/-- ASCII lowercase of one character (the case JS toLowerCase applies to the
ASCII data the detector and verifier handle). -/
def toLowerChar (c : Char) : Char :=
  if 'A' ≤ c && c ≤ 'Z' then Char.ofNat (c.toNat + 32) else c

/-- JS String.prototype.toLowerCase on ASCII strings. -/
def strToLower (s : String) : String :=
  String.mk (s.toList.map toLowerChar)

/-- OS classification produced by the detector. -/
inductive OSType where
  | ios | android | macos | windows | linux | chromeos | unknown
deriving DecidableEq, Repr

/-- Device classification produced by the detector. -/
inductive DeviceType where
  | mobile | tablet | desktop
deriving DecidableEq, Repr

/-- Primary platform type: mutually exclusive verdict of the priority
resolver. -/
inductive PlatformType where
  | web | pwa | tma | native
deriving DecidableEq, Repr

/-- Domain mode derived from the hostname ('app.*' vs 'tg.*'). -/
inductive DomainMode where
  | app | tma | unknown
deriving DecidableEq, Repr

/-- Deploy-environment tag. -/
inductive EnvironmentType where
  | development | production | unknown
deriving DecidableEq, Repr

/-- Browser rendering-engine family. -/
inductive BrowserFamily where
  | chromium | webkit | gecko | unknown
deriving DecidableEq, Repr

/-- Capacitor platform name mapped from Capacitor.getPlatform(). -/
inductive CapPlatform where
  | ios | android | web | unknown
deriving DecidableEq, Repr

/-- Capacitor enrichment record (src/detector.ts getCapacitorInfo).  The
isPluginAvailable closure of the source is a function-valued field consulted
by no decision logic and is omitted. -/
structure CapacitorInfo where
  isNativePlatform : Bool
  platform : CapPlatform
  nativeVersion : Option String
deriving DecidableEq, Repr

/-- Shape of a first-party Telegram WebApp bridge object (or a caller-supplied
stand-in) as read by validateTelegramWebApp / getTelegramInfo.
initDataUnsafe is modelled by its number of keys (`none` = the field is
undefined). -/
structure WebApp where
  version : Option String := none
  initData : Option String := none
  initDataUnsafe : Option Nat := none
  platform : Option String := none
  colorScheme : Option String := none
deriving DecidableEq, Repr

/-- Telegram enrichment record (src/detector.ts getTelegramInfo).  Fields that
are purely presentational (viewport metrics, colors, safe-area insets, user)
are read by no decision logic or claim and are omitted from the embedding. -/
structure TelegramInfo where
  platform : String
  version : String
  sdkSource : String
  colorScheme : String
  initData : Option String
deriving DecidableEq, Repr

/-- Screen information. -/
structure ScreenInfo where
  width : Nat
  height : Nat
  pixelRatio : Int
deriving DecidableEq, Repr

/-- Confidence sub-scores, each clamped to [0,100]. -/
structure DetectionConfidence where
  overall : Int
  os : Int
  device : Int
  browser : Int
deriving DecidableEq, Repr

/-- Ambient environment facts read by the detector: every global the
TypeScript code consults, plus the observable outputs of the tma-sdk module's
getters (which only read third-party SDK globals). -/
structure Env where
  hasWindow : Bool := true
  userAgent : String := ""
  hostname : String := ""
  href : String := ""
  navPlatform : String := ""
  maxTouchPoints : Nat := 0
  innerWidth : Nat := 0
  innerHeight : Nat := 0
  devicePixelRatio : Int := 1
  hasCapacitor : Bool := false
  capacitorIsNativePlatform : Option Bool := none
  capacitorGetPlatform : Option String := none
  capacitorNativeVersion : Option String := none
  hasCordova : Bool := false
  hasPhonegap : Bool := false
  docCapacitorClass : Bool := false
  dmStandalone : Bool := false
  dmFullscreen : Bool := false
  dmMinimalUi : Bool := false
  dmWco : Bool := false
  navStandaloneFlag : Bool := false
  wcoVisible : Bool := false
  tmaJsViaTelegram : Bool := false
  tmaJsAvailable : Bool := false
  tmaJsInfo : Option TelegramInfo := none
  nativeWebApp : Option WebApp := none
  windowChromeDefined : Bool := false
  clientHintsSupported : Bool := false
deriving DecidableEq, Repr

/-- Resolved detector options after the constructor merges caller options over
the defaults (useClientHints false, useFeatureDetection true, cacheTTL
5000). -/
structure Options where
  userAgent : Option String := none
  hostname : Option String := none
  telegramWebApp : Option WebApp := none
  environment : Option EnvironmentType := none
  useClientHints : Bool := false
  useFeatureDetection : Bool := true
  cacheTTL : Int := 5000
  debug : Bool := false
deriving DecidableEq, Repr

/-- OS detection from the user agent (src/detector.ts detectOS), including
the iPadOS-13+ masquerade rule (MacIntel platform with more than one touch
point).  The navigator.platform read is guarded by the window check exactly
as in the source. -/
def detectOS (hasWindow : Bool) (navPlatform : String) (maxTouchPoints : Nat)
    (userAgent : String) : OSType :=
  let ua := strToLower userAgent
  let platform := if hasWindow then navPlatform else ""
  if containsStr ua "iphone" || containsStr ua "ipad" || containsStr ua "ipod" then .ios
  else if platform = "MacIntel" && hasWindow && maxTouchPoints > 1 then .ios
  else if containsStr ua "android" then .android
  else if containsStr ua "cros" then .chromeos
  else if containsStr ua "mac os x" || containsStr ua "macintosh" then .macos
  else if containsStr ua "windows" || containsStr ua "win32" || containsStr ua "win64" then .windows
  else if (containsStr ua "linux" || containsStr ua "x11") && !containsStr ua "android" then .linux
  else .unknown

/-- Recogniser for the regex /tab\d+/: the characters 't','a','b' followed by
a decimal digit somewhere in the string. -/
def hasTabDigit : List Char → Bool
  | [] => false
  | 't' :: rest =>
    (match rest with
     | 'a' :: 'b' :: d :: _ => d.isDigit
     | _ => false) || hasTabDigit rest
  | _ :: rest => hasTabDigit rest

/-- Device detection from user agent and OS (src/detector.ts detectDevice). -/
def detectDevice (hasWindow : Bool) (navPlatform : String) (maxTouchPoints : Nat)
    (innerWidth : Nat) (userAgent : String) (os : OSType) : DeviceType :=
  let ua := strToLower userAgent
  let width := if hasWindow then innerWidth else 0
  if os = .ios then
    if containsStr ua "ipad" || (navPlatform = "MacIntel" && maxTouchPoints > 1) then .tablet
    else .mobile
  else if os = .android then
    if !containsStr ua "mobile" && containsStr ua "android" then .tablet
    else if containsStr ua "tablet" || hasTabDigit ua.toList then .tablet
    else .mobile
  else if width > 0 && width ≤ 768 && containsStr ua "mobi" then .mobile
  else .desktop

/-- Domain mode from the hostname (src/detector.ts detectDomainMode). -/
def detectDomainMode (hostname : String) : DomainMode :=
  if strStartsWith hostname "app." then .app
  else if strStartsWith hostname "tg." then .tma
  else .unknown

/-- Deploy-environment classification (src/detector.ts detectEnvironment). -/
def detectEnvironment (env : Env) (opts : Options) : EnvironmentType :=
  match opts.environment with
  | some e => e
  | none =>
    if !env.hasWindow then .unknown
    else
      let hostname := jsOrS opts.hostname env.hostname
      if hostname = "localhost" || hostname = "127.0.0.1" ||
          strStartsWith hostname "192.168." || strStartsWith hostname "10." ||
          containsStr hostname "dev." || containsStr hostname "staging." ||
          containsStr hostname ".local" then .development
      else if containsStr hostname ".com" || containsStr hostname ".org" ||
          containsStr hostname ".net" || containsStr hostname ".io" ||
          containsStr hostname ".app" || containsStr hostname ".cc" then .production
      else .unknown

/-- Native-wrapper presence check (src/detector.ts detectNative): Capacitor
global, legacy Cordova/PhoneGap globals, or the documentElement 'capacitor'
marker class. -/
def detectNative (env : Env) : Bool :=
  if !env.hasWindow then false
  else if env.hasCapacitor then true
  else if env.hasCordova || env.hasPhonegap then true
  else if env.docCapacitorClass then true
  else false

/-- Validation of a first-party Telegram WebApp object (src/detector.ts
validateTelegramWebApp).  The two branches of the final conditional are kept
exactly as in the source: both return hasPlatform AND hasColorScheme. -/
def validateTelegramWebApp (w : WebApp) : Bool :=
  if !jsTruthyS w.version then false
  else
    let hasInitData := jsTruthyS w.initData ||
      (match w.initDataUnsafe with | some keys => keys > 0 | none => false)
    let hasPlatform := (match w.platform with
      | some p => p ≠ "" && p ≠ "unknown"
      | none => false)
    let hasColorScheme := jsTruthyS w.colorScheme
    if hasInitData then hasPlatform && hasColorScheme
    else hasPlatform && hasColorScheme

/-- Telegram Mini App presence (src/detector.ts detectTelegram): third-party
tma.js signal first, then the caller-supplied stand-in, then the native
WebApp global. -/
def detectTelegram (env : Env) (opts : Options) : Bool :=
  if !env.hasWindow then false
  else if env.tmaJsViaTelegram then true
  else
    match opts.telegramWebApp with
    | some w => validateTelegramWebApp w
    | none =>
      match env.nativeWebApp with
      | none => false
      | some w => validateTelegramWebApp w

/-- PWA presence (src/detector.ts detectPWA): display-mode media queries,
the iOS standalone navigator flag, or a visible window-controls overlay. -/
def detectPWA (env : Env) : Bool :=
  if !env.hasWindow then false
  else env.dmStandalone || env.dmFullscreen || env.dmMinimalUi || env.dmWco ||
    env.navStandaloneFlag || env.wcoVisible

/-- Capacitor enrichment (src/detector.ts getCapacitorInfo): produced only
when the Capacitor global exists; a missing isNativePlatform/getPlatform
method yields false/'unknown'. -/
def getCapacitorInfo (env : Env) : Option CapacitorInfo :=
  if !env.hasWindow || !env.hasCapacitor then none
  else
    let platformName := env.capacitorGetPlatform.getD "unknown"
    some {
      isNativePlatform := env.capacitorIsNativePlatform.getD false
      platform :=
        if platformName = "ios" then .ios
        else if platformName = "android" then .android
        else if platformName = "web" then .web
        else .unknown
      nativeVersion := env.capacitorNativeVersion }

/-- Telegram enrichment (src/detector.ts getTelegramInfo): tma.js info when
that SDK is available and yields a record, else a record built from the
caller-supplied or native WebApp object. -/
def getTelegramInfo (env : Env) (opts : Options) : Option TelegramInfo :=
  let fromTmaJs := if env.tmaJsAvailable then env.tmaJsInfo else none
  match fromTmaJs with
  | some i => some i
  | none =>
    match opts.telegramWebApp <|> env.nativeWebApp with
    | none => none
    | some w => some {
        platform := jsOrS w.platform "unknown"
        version := jsOrS w.version "0.0"
        sdkSource := "native"
        colorScheme := jsOrS w.colorScheme "dark"
        initData := w.initData }

/-- Screen info (src/detector.ts getScreenInfo). -/
def getScreenInfo (env : Env) : ScreenInfo :=
  if !env.hasWindow then { width := 0, height := 0, pixelRatio := 1 }
  else { width := env.innerWidth, height := env.innerHeight,
         pixelRatio := if env.devicePixelRatio = 0 then 1 else env.devicePixelRatio }

/-- Browser family detection (src/detector.ts detectBrowserFamily). -/
def detectBrowserFamily (env : Env) (userAgent : String) : BrowserFamily :=
  let ua := strToLower userAgent
  if env.windowChromeDefined || containsStr ua "chrome" || containsStr ua "crios" ||
      containsStr ua "edg" || containsStr ua "opr" || containsStr ua "samsungbrowser" then
    .chromium
  else if containsStr ua "webkit" && !(containsStr ua "chrome" || containsStr ua "crios") then
    .webkit
  else if containsStr ua "gecko" && !containsStr ua "webkit" then
    .gecko
  else .unknown

/-- Word-character test for the regex word boundary in the frozen-UA
pattern. -/
def isWordChar (c : Char) : Bool :=
  c.isAlphanum || c = '_'

/-- Occurrence test for /\bChrome\/1[0-9]\x7b2\x7d\.0\.0\.0\b/ at the head of
the list, with the trailing word boundary. -/
def frozenGenericHere : List Char → Bool
  | 'C' :: 'h' :: 'r' :: 'o' :: 'm' :: 'e' :: '/' :: '1' :: d1 :: d2 :: '.' :: '0' :: '.' :: '0' :: '.' :: '0' :: rest =>
    d1.isDigit && d2.isDigit &&
      (match rest with | [] => true | c :: _ => !isWordChar c)
  | _ => false

/-- Scan for the generic frozen-Chrome pattern with its leading word
boundary; prev is the character just before the scan position. -/
def frozenGenericScan (prev : Option Char) : List Char → Bool
  | [] => false
  | c :: rest =>
    (frozenGenericHere (c :: rest) &&
      (match prev with | none => true | some p => !isWordChar p)) ||
    frozenGenericScan (some c) rest

/-- Occurrence test for /Android.*Chrome\/110\.0\.0\.0/: an 'Android' token
followed later by the frozen Chrome 110 version. -/
def androidThenFrozen : List Char → Bool
  | [] => false
  | c :: rest =>
    (startsWithChars "Android".toList (c :: rest) &&
      infixChars "Chrome/110.0.0.0".toList rest) ||
    androidThenFrozen rest

/-- Frozen/reduced user-agent recogniser (src/client-hints.ts isFrozenUA):
any of the three source regexes matches (case-sensitive). -/
def isFrozenUA (userAgent : String) : Bool :=
  containsStr userAgent "Chrome/110.0.0.0" ||
  androidThenFrozen userAgent.toList ||
  frozenGenericScan none userAgent.toList

/-- Clamp a sub-score into [0,100] as Math.max(0, Math.min(100, x)). -/
def clamp100 (x : Int) : Int := max 0 (min 100 x)

/-- Confidence scoring (src/detector.ts calculateConfidence). -/
def calculateConfidence (env : Env) (opts : Options) (userAgent : String)
    (os : OSType) (browserFamily : BrowserFamily) : DetectionConfidence :=
  let overall : Int := 100
  let osC : Int := 100
  let deviceC : Int := 100
  let browserC : Int := 100
  let frozen := isFrozenUA userAgent
  let overall := if frozen then overall - 20 else overall
  let osC := if frozen then osC - 30 else osC
  let deviceC := if frozen then deviceC - 20 else deviceC
  let hintsUnused := env.clientHintsSupported && !opts.useClientHints
  let overall := if hintsUnused then overall - 10 else overall
  let osC := if hintsUnused then osC - 15 else osC
  let overall := if os = .unknown then overall - 25 else overall
  let osC := if os = .unknown then 30 else osC
  let overall := if browserFamily = .unknown then overall - 10 else overall
  let browserC := if browserFamily = .unknown then browserC - 20 else browserC
  let overall := if opts.useFeatureDetection then overall + 5 else overall
  let deviceC := if opts.useFeatureDetection then deviceC + 10 else deviceC
  { overall := clamp100 overall, os := clamp100 osC,
    device := clamp100 deviceC, browser := clamp100 browserC }

/-- Detection result record (src/detector.ts PlatformInfo). -/
structure PlatformInfo where
  type : PlatformType
  os : OSType
  osVersion : Option String := none
  device : DeviceType
  architecture : Option String := none
  deviceModel : Option String := none
  domainMode : DomainMode
  environment : EnvironmentType
  isPWA : Bool
  isTelegram : Bool
  isNative : Bool
  isWeb : Bool
  isMobile : Bool
  isDesktop : Bool
  isIOS : Bool
  isAndroid : Bool
  isMacOS : Bool
  isWindows : Bool
  isLinux : Bool
  isChromeOS : Bool
  userAgent : String
  shouldShowTMAWarning : Bool
  screen : ScreenInfo
  browserFamily : Option BrowserFamily := none
  confidence : Option DetectionConfidence := none
  capacitor : Option CapacitorInfo := none
  telegram : Option TelegramInfo := none
deriving DecidableEq, Repr

/-- Server-side (no window) result record (src/detector.ts
createServerSideInfo). -/
def createServerSideInfo (opts : Options) : PlatformInfo :=
  { type := .web, os := .unknown, device := .desktop, domainMode := .unknown
    environment := opts.environment.getD .unknown
    isPWA := false, isTelegram := false, isNative := false, isWeb := true
    isMobile := false, isDesktop := true
    isIOS := false, isAndroid := false, isMacOS := false, isWindows := false
    isLinux := false, isChromeOS := false
    userAgent := "", shouldShowTMAWarning := false
    screen := { width := 0, height := 0, pixelRatio := 1 } }

/-- Telegram platform override of the OS/device guess (the adjustment block
of src/detector.ts performDetection): mobile platform identifiers force
device mobile-or-tablet and correct the OS, desktop identifiers force
desktop, web identifiers leave the guess untouched. -/
def telegramPlatformOverride (tgPlatform : Option String) (device : DeviceType)
    (isMobile : Bool) (os : OSType) : DeviceType × Bool × OSType :=
  match tgPlatform with
  | some p =>
    if p = "ios" || p = "android" || p = "android_x" then
      (if device = DeviceType.tablet then DeviceType.tablet else DeviceType.mobile,
       true,
       if p = "ios" && os ≠ OSType.ios then OSType.ios
       else if (p = "android" || p = "android_x") && os ≠ OSType.android then OSType.android
       else os)
    else if p = "macos" || p = "tdesktop" then
      (DeviceType.desktop, false,
       if p = "macos" && os ≠ OSType.macos then OSType.macos else os)
    else (device, isMobile, os)
  | none => (device, isMobile, os)

/-- Full synchronous detection pipeline (src/detector.ts performDetection):
priority-based platform classification, the Telegram platform override of the
OS/device guess, derived booleans, confidence and enrichment records. -/
def performDetection (env : Env) (opts : Options) : PlatformInfo :=
  if !env.hasWindow then createServerSideInfo opts
  else
    let userAgent := jsOrS opts.userAgent env.userAgent
    let hostname := jsOrS opts.hostname env.hostname
    let os := detectOS env.hasWindow env.navPlatform env.maxTouchPoints userAgent
    let device := detectDevice env.hasWindow env.navPlatform env.maxTouchPoints
      env.innerWidth userAgent os
    let domainMode := detectDomainMode hostname
    let environment := detectEnvironment env opts
    let isNativeCapacitor := detectNative env
    let capacitor := getCapacitorInfo env
    let isNative := isNativeCapacitor &&
      (match capacitor with | some c => c.isNativePlatform | none => false)
    let isTelegram := detectTelegram env opts
    let telegram := getTelegramInfo env opts
    let isPWA := detectPWA env
    let type : PlatformType :=
      if isNative then .native
      else if isTelegram then .tma
      else if isPWA then .pwa
      else .web
    let shouldShowTMAWarning := domainMode = DomainMode.tma && !isTelegram
    let screen := getScreenInfo env
    let finalDevice := device
    let finalIsMobile := device = DeviceType.mobile || device = DeviceType.tablet
    let finalOS := os
    let tgPlatform : Option String :=
      if isTelegram then
        match telegram with
        | some t => if t.platform ≠ "" then some t.platform else none
        | none => none
      else none
    let fin := telegramPlatformOverride tgPlatform finalDevice finalIsMobile finalOS
    let finalDevice := fin.1
    let finalIsMobile := fin.2.1
    let finalOS := fin.2.2
    let browserFamily := detectBrowserFamily env userAgent
    let confidence := calculateConfidence env opts userAgent finalOS browserFamily
    { type := type, os := finalOS, device := finalDevice
      domainMode := domainMode, environment := environment
      isPWA := isPWA, isTelegram := isTelegram, isNative := isNative
      isWeb := !isNative && !isTelegram
      isMobile := finalIsMobile, isDesktop := !finalIsMobile
      isIOS := finalOS = OSType.ios, isAndroid := finalOS = OSType.android
      isMacOS := finalOS = OSType.macos, isWindows := finalOS = OSType.windows
      isLinux := finalOS = OSType.linux, isChromeOS := finalOS = OSType.chromeos
      userAgent := userAgent, shouldShowTMAWarning := shouldShowTMAWarning
      screen := screen, browserFamily := some browserFamily
      confidence := some confidence, capacitor := capacitor, telegram := telegram }

/-- UTF-8 byte encoding of a single character (matches TextEncoder and the
byte sequence encodeURIComponent percent-encodes). -/
def utf8BytesChar (c : Char) : List Nat :=
  let n := c.toNat
  if n < 0x80 then [n]
  else if n < 0x800 then
    [0xC0 + n / 0x40, 0x80 + n % 0x40]
  else if n < 0x10000 then
    [0xE0 + n / 0x1000, 0x80 + n / 0x40 % 0x40, 0x80 + n % 0x40]
  else
    [0xF0 + n / 0x40000, 0x80 + n / 0x1000 % 0x40, 0x80 + n / 0x40 % 0x40, 0x80 + n % 0x40]

/-- UTF-8 byte encoding of a string (TextEncoder.encode). -/
def utf8Bytes (s : String) : List Nat :=
  s.toList.flatMap utf8BytesChar

/-- Single hex digit, lowercase. -/
def hexDigitLower (n : Nat) : Char :=
  if n < 10 then Char.ofNat ('0'.toNat + n)
  else Char.ofNat ('a'.toNat + (n - 10))

/-- Single hex digit, uppercase (encodeURIComponent escapes use uppercase). -/
def hexDigitUpper (n : Nat) : Char :=
  if n < 10 then Char.ofNat ('0'.toNat + n)
  else Char.ofNat ('A'.toNat + (n - 10))

/-- Characters encodeURIComponent leaves unescaped: ASCII alphanumerics and
- _ . ! ~ * ' ( ). -/
def isUnreservedEC (c : Char) : Bool :=
  c.isAlphanum || c = '-' || c = '_' || c = '.' || c = '!' || c = '~' ||
    c = '*' || c = '\'' || c = '(' || c = ')'

/-- Model of JS encodeURIComponent: unreserved characters pass through, every
other character is replaced by the percent-encoding of its UTF-8 bytes. -/
def encodeURIComponent (s : String) : String :=
  String.mk (s.toList.flatMap fun c =>
    if isUnreservedEC c then [c]
    else (utf8BytesChar c).flatMap fun b =>
      ['%', hexDigitUpper (b / 16 % 16), hexDigitUpper (b % 16)])

/-- Result of the TMA availability check (src/detector.ts
checkTMAAvailability). -/
structure TMAAvailability where
  isAvailable : Bool
  reason : Option String := none
  botUrl : Option String := none
deriving DecidableEq, Repr

/-- TMA availability check and deep-link generation (src/detector.ts
checkTMAAvailability). -/
def checkTMAAvailability (env : Env) (opts : Options) (botUsername : String) :
    TMAAvailability :=
  if detectTelegram env opts then { isAvailable := true }
  else
    let currentUrl := if env.hasWindow then env.href else ""
    let encodedUrl := encodeURIComponent currentUrl
    let botUrl := "https://t.me/" ++ botUsername ++ "?start=" ++ encodedUrl
    { isAvailable := false
      reason := some "Not running in Telegram Mini App environment"
      botUrl := some botUrl }

/-- Detection result tagged with an allocation id: two results are the same
JS object reference exactly when their ids coincide. -/
structure TaggedInfo where
  id : Nat
  info : PlatformInfo
deriving DecidableEq, Repr

/-- Mutable per-instance state of a PlatformDetector: resolved options, the
cached result with its timestamp, and the allocation counter used to model
object identity. -/
structure DetectorState where
  options : Options
  cache : Option TaggedInfo := none
  cacheTimestamp : Option Int := none
  nextId : Nat := 0
deriving DecidableEq, Repr

/-- Fresh detector instance for the given caller options (the constructor). -/
def mkDetector (opts : Options) : DetectorState :=
  { options := opts }

/-- One detect() call (src/detector.ts detect) at wall-clock time `now`
(milliseconds): serve the cached object when the cache entry exists, its
timestamp is truthy, and the elapsed time is strictly below the effective
TTL computed by the source as `this.options.cacheTTL || 5000` (so a TTL of 0
falls back to 5000); otherwise recompute and cache a fresh object. -/
def detectCall (env : Env) (s : DetectorState) (now : Int) :
    TaggedInfo × DetectorState :=
  let cacheTTL := if s.options.cacheTTL = 0 then 5000 else s.options.cacheTTL
  match s.cache, s.cacheTimestamp with
  | some c, some ts =>
    if ts ≠ 0 && now - ts < cacheTTL then (c, s)
    else
      let r : TaggedInfo := { id := s.nextId, info := performDetection env s.options }
      (r, { s with cache := some r, cacheTimestamp := some now, nextId := s.nextId + 1 })
  | _, _ =>
    let r : TaggedInfo := { id := s.nextId, info := performDetection env s.options }
    (r, { s with cache := some r, cacheTimestamp := some now, nextId := s.nextId + 1 })

/-- Cache invalidation (src/detector.ts clearCache). -/
def clearCache (s : DetectorState) : DetectorState :=
  { s with cache := none, cacheTimestamp := none }

/-- Client-hints data merged by detectAsync (src/client-hints.ts
ClientHintsResult fields the merge reads). -/
structure ClientHintsResult where
  os : Option OSType := none
  osVersion : Option String := none
  device : Option DeviceType := none
  architecture : Option String := none
  model : Option String := none
deriving DecidableEq, Repr

/-- JS `a || b` on two optional strings (empty string falls through). -/
def jsOrOptS (a b : Option String) : Option String :=
  match a with
  | none => b
  | some s => if s = "" then b else some s

/-- Async detection (src/detector.ts detectAsync): returns the base result
unchanged when client hints are unsupported, disabled, null, or the hints
call threw (all modelled by `hints = none`); otherwise merges hint fields
over the base result and recomputes the boolean flags as in the source. -/
def detectAsyncResult (env : Env) (opts : Options) (base : PlatformInfo)
    (hints : Option ClientHintsResult) : PlatformInfo :=
  if !env.clientHintsSupported || opts.useClientHints = false then base
  else
    match hints with
    | none => base
    | some h =>
      let mergedOS := h.os.getD base.os
      { base with
        os := mergedOS
        osVersion := jsOrOptS h.osVersion base.osVersion
        device := h.device.getD base.device
        architecture := jsOrOptS h.architecture base.architecture
        deviceModel := jsOrOptS h.model base.deviceModel
        isIOS := mergedOS = OSType.ios
        isAndroid := mergedOS = OSType.android
        isMacOS := mergedOS = OSType.macos
        isWindows := mergedOS = OSType.windows
        isLinux := mergedOS = OSType.linux
        isChromeOS := mergedOS = OSType.chromeos
        isMobile :=
          if h.device = some DeviceType.mobile || h.device = some DeviceType.tablet then true
          else base.isMobile
        isDesktop :=
          if h.device = some DeviceType.desktop then true
          else base.isDesktop }

/-- Lowercase hex rendering of a byte list (src/telegram-init-data.ts
bytesToHex: each byte as two lowercase hex digits). -/
def bytesToHex (bytes : List Nat) : String :=
  String.mk (bytes.flatMap fun b => [hexDigitLower (b / 16 % 16), hexDigitLower (b % 16)])

/-- Constant-time string comparison (src/telegram-init-data.ts
timingSafeEqual): length check, then XOR-accumulated code-unit comparison,
which as a boolean function is exactly string equality. -/
def timingSafeEqual (a b : String) : Bool :=
  if a.length ≠ b.length then false else a == b

/-- JS String.prototype.trim (whitespace here is the ASCII whitespace set
appearing in the payloads the claims concern). -/
def jsTrim (s : String) : String :=
  String.mk (((s.toList.dropWhile Char.isWhitespace).reverse.dropWhile Char.isWhitespace).reverse)

/-- Hex digit character test (0-9, a-f, A-F). -/
def isHexDigitChar (c : Char) : Bool :=
  c.isDigit || ('a' ≤ c && c ≤ 'f') || ('A' ≤ c && c ≤ 'F')

/-- Numeric value of a decimal digit list. -/
def digitsToNat (ds : List Char) : Nat :=
  ds.foldl (fun a c => 10 * a + (c.toNat - '0'.toNat)) 0

/-- JS Number() coercion restricted to the wire format's decimal integer
strings (optional sign, then digits); anything else is NaN (`none`). -/
def parseJsInt (s : String) : Option Int :=
  match s.toList with
  | '-' :: ds =>
    if !ds.isEmpty && ds.all Char.isDigit then some (-(digitsToNat ds : Int)) else none
  | '+' :: ds =>
    if !ds.isEmpty && ds.all Char.isDigit then some (digitsToNat ds : Int) else none
  | ds =>
    if !ds.isEmpty && ds.all Char.isDigit then some (digitsToNat ds : Int) else none

/-- Numeric value of a hex digit character. -/
def hexVal (c : Char) : Nat :=
  if c.isDigit then c.toNat - '0'.toNat
  else if 'a' ≤ c && c ≤ 'f' then c.toNat - 'a'.toNat + 10
  else if 'A' ≤ c && c ≤ 'F' then c.toNat - 'A'.toNat + 10
  else 0

/-- URLSearchParams component decoding: '+' becomes a space and a valid %XX
escape becomes the character with that code (exact for the ASCII payloads the
claims concern; multi-byte UTF-8 escape sequences are out of scope). An
invalid escape is kept literally. -/
def decodeCharsGo : Nat → List Char → List Char
  | _, [] => []
  | 0, l => l
  | fuel + 1, '+' :: rest => ' ' :: decodeCharsGo fuel rest
  | fuel + 1, '%' :: h1 :: h2 :: rest =>
    if isHexDigitChar h1 && isHexDigitChar h2 then
      Char.ofNat (16 * hexVal h1 + hexVal h2) :: decodeCharsGo fuel rest
    else
      '%' :: decodeCharsGo fuel (h1 :: h2 :: rest)
  | fuel + 1, '%' :: rest => '%' :: decodeCharsGo fuel rest
  | fuel + 1, c :: rest => c :: decodeCharsGo fuel rest

/-- Character-level decoding entry point (the fuel argument, the input
length, only bounds the recursion and never runs out). -/
def decodeChars (l : List Char) : List Char :=
  decodeCharsGo l.length l

/-- Decoding of one query-string component. -/
def decodeQueryComponent (s : String) : String :=
  String.mk (decodeChars s.toList)

/-- Split of one `key=value` piece at the first '=' (key only when no '='
occurs), with both sides decoded. -/
def parsePair (p : String) : String × String :=
  let l := p.toList
  let k := l.takeWhile (· ≠ '=')
  let rest := l.dropWhile (· ≠ '=')
  let v := match rest with
    | '=' :: vs => vs
    | _ => []
  (decodeQueryComponent (String.mk k), decodeQueryComponent (String.mk v))

/-- Split of a character list at every occurrence of a separator. -/
def splitOnChar (sep : Char) : List Char → List (List Char)
  | [] => [[]]
  | c :: rest =>
    let r := splitOnChar sep rest
    if c = sep then [] :: r
    else
      match r with
      | h :: t => (c :: h) :: t
      | [] => [[c]]

/-- URLSearchParams parse of a query string: split on '&', drop empty pieces,
split each piece at its first '='. -/
def parseQuery (s : String) : List (String × String) :=
  (((splitOnChar '&' s.toList).map String.mk).filter (· ≠ "")).map parsePair

/-- URLSearchParams.get: value of the first entry with the given key. -/
def paramsGet (entries : List (String × String)) (name : String) : Option String :=
  (entries.find? fun kv => kv.1 = name).map (·.2)

/-- Record built by assigning each entry in order (last value wins, key order
is first occurrence), as the source builds rawParams. -/
def rawParamsOf (entries : List (String × String)) : List (String × String) :=
  entries.foldl (fun acc kv =>
    if acc.any (·.1 = kv.1) then
      acc.map fun e => if e.1 = kv.1 then (e.1, kv.2) else e
    else acc ++ [kv]) []

/-- Lexicographic (code-point) comparison of character lists, the order the
JS string comparator a < b induces. -/
def leChars : List Char → List Char → Bool
  | [], _ => true
  | _ :: _, [] => false
  | a :: as, b :: bs => if a = b then leChars as bs else decide (a < b)

/-- Lexicographic string comparison. -/
def strLe (a b : String) : Bool :=
  leChars a.toList b.toList

/-- Insertion into a sorted list of strings. -/
def insertSorted (x : String) : List String → List String
  | [] => [x]
  | y :: ys => if strLe x y then x :: y :: ys else y :: insertSorted x ys

/-- Sort of a string list under the total comparator the source passes to
Array.prototype.sort (lexicographic string order). -/
def sortStrings (l : List String) : List String :=
  l.foldr insertSorted []

/-- Canonical data-check string (src/telegram-init-data.ts): all entries
except hash, rendered key=value, sorted, joined with newline. -/
def dataCheckStringOf (entries : List (String × String)) : String :=
  String.intercalate "\n"
    (sortStrings ((entries.filter fun kv => kv.1 ≠ "hash").map fun kv => kv.1 ++ "=" ++ kv.2))

/-- Minimal JSON value model, used only for the truthiness checks the
verifier applies to parsed user/receiver/chat fields. -/
inductive Json where
  | null
  | bool (b : Bool)
  | num (n : Int)
  | str (s : String)
  | arr (elems : List Json)
  | obj (fields : List (String × Json))

/-- JS truthiness of a parsed JSON value. -/
def jsTruthyJson : Json → Bool
  | .null => false
  | .bool b => b
  | .num n => n ≠ 0
  | .str s => s ≠ ""
  | .arr _ => true
  | .obj _ => true

/-- Outcome of parseJsonField (src/telegram-init-data.ts): the field is
absent/empty, parses to a value, or fails to parse. -/
inductive FieldParse where
  | undef
  | ok (j : Json)
  | fail

/-- Discriminator for the parse-failure case. -/
def FieldParse.isFail : FieldParse → Bool
  | .fail => true
  | _ => false

/-- Optional embedded-JSON field parse (src/telegram-init-data.ts
parseJsonField), with JSON.parse supplied as the environment primitive
`jsonParse` (`none` = the parse throws). -/
def parseJsonField (jsonParse : String → Option Json) (value : Option String) :
    FieldParse :=
  match value with
  | none => .undef
  | some v =>
    if v = "" then .undef
    else
      match jsonParse v with
      | some j => .ok j
      | none => .fail

/-- Typed validation error codes (src/types.ts
TelegramInitDataValidationErrorCode). -/
inductive TGErrorCode where
  | MISSING_INIT_DATA
  | MISSING_BOT_TOKEN
  | MISSING_HASH
  | HASH_MISMATCH
  | INVALID_AUTH_DATE
  | EXPIRED
  | INVALID_JSON
  | CRYPTO_UNAVAILABLE
  | INVALID_PAYLOAD
deriving DecidableEq, Repr

/-- Parsed payload returned on success (src/types.ts TelegramInitData). -/
structure TelegramInitData where
  query_id : Option String
  user : Option Json
  receiver : Option Json
  chat : Option Json
  chat_type : Option String
  chat_instance : Option String
  start_param : Option String
  can_send_after : Option Int
  auth_date : Int
  hash : String
  dataCheckString : String
  raw : String
  rawParams : List (String × String)

/-- Verifier result: structured success or a typed error, never an
exception. -/
inductive VerifyResult where
  | ok (data : TelegramInitData)
  | err (error : TGErrorCode) (message : String)

/-- Error code of a verifier result, `none` on success. -/
def errorCodeOf : VerifyResult → Option TGErrorCode
  | .ok _ => none
  | .err c _ => some c

/-- Verifier options (src/types.ts TelegramInitDataValidationOptions). -/
structure VerifyOptions where
  maxAgeSeconds : Option Int := none
  currentTimestamp : Option Int := none
  requireUser : Bool := false
deriving DecidableEq, Repr

/-- Removal of a leading '?' from the raw payload before parsing. -/
def stripQuery (s : String) : String :=
  if strStartsWith s "?" then s.drop 1 else s

/-- JS `params.get(x) || undefined`: an absent or empty value becomes
undefined. -/
def jsStrOrUndef (o : Option String) : Option String :=
  match o with
  | none => none
  | some s => if s = "" then none else some s

/-- Payload verifier (src/telegram-init-data.ts verifyTelegramInitData),
embedded as a total function.  The Web-Crypto HMAC-SHA256 primitive is the
parameter `hmac` (key bytes, message bytes, digest bytes; `none` models an
environment without crypto.subtle, whose thrown error the source catches and
maps to CRYPTO_UNAVAILABLE); JSON.parse is the parameter `jsonParse`; and
`nowClock` is Math.floor(Date.now()/1000).  The string input case is
modelled; a null/undefined payload is `none`.  auth_date/can_send_after
parsing covers decimal integer timestamps (the Number() coercion on the
wire-format's decimal integer strings). -/
def verifyTelegramInitData (hmac : Option (List Nat → List Nat → List Nat))
    (jsonParse : String → Option Json) (nowClock : Int)
    (initData : Option String) (botToken : Option String)
    (options : VerifyOptions) : VerifyResult :=
  match initData with
  | none => .err .MISSING_INIT_DATA "initData payload is required"
  | some rawInput =>
    if jsTrim rawInput = "" then
      .err .MISSING_INIT_DATA "initData payload is required"
    else
      let botTok := match botToken with | none => "" | some t => t
      if botTok = "" then
        .err .MISSING_BOT_TOKEN "Telegram bot token is required"
      else
        let rawString := jsTrim rawInput
        let params := parseQuery (stripQuery rawString)
        match paramsGet params "hash" with
        | none => .err .MISSING_HASH "hash parameter is required in initData"
        | some hash =>
          if hash = "" then
            .err .MISSING_HASH "hash parameter is required in initData"
          else
            let rawParams := rawParamsOf params
            let dataCheckString := dataCheckStringOf params
            match hmac with
            | none => .err .CRYPTO_UNAVAILABLE
                "Web Crypto API (crypto.subtle) is not available in this environment"
            | some f =>
              let secretKey := f (utf8Bytes "WebAppData") (utf8Bytes botTok)
              let computedHex := bytesToHex (f secretKey (utf8Bytes dataCheckString))
              if !timingSafeEqual computedHex (strToLower hash) then
                .err .HASH_MISMATCH "initData hash does not match Telegram signature"
              else
                let authDateOpt := match paramsGet params "auth_date" with
                  | some r => if r = "" then none else parseJsInt r
                  | none => none
                match authDateOpt with
                | none => .err .INVALID_AUTH_DATE "auth_date must be a valid UNIX timestamp"
                | some authDate =>
                  let now := options.currentTimestamp.getD nowClock
                  let maxAge := options.maxAgeSeconds.getD 600
                  if maxAge > 0 && now - authDate > maxAge then
                    .err .EXPIRED "initData is expired"
                  else if authDate - now > 60 then
                    .err .INVALID_AUTH_DATE "auth_date is more than 60 seconds in the future"
                  else
                    match parseJsonField jsonParse (paramsGet params "user") with
                    | .fail => .err .INVALID_JSON "Invalid JSON in \"user\" field"
                    | userP =>
                      match parseJsonField jsonParse (paramsGet params "receiver") with
                      | .fail => .err .INVALID_JSON "Invalid JSON in \"receiver\" field"
                      | receiverP =>
                        match parseJsonField jsonParse (paramsGet params "chat") with
                        | .fail => .err .INVALID_JSON "Invalid JSON in \"chat\" field"
                        | chatP =>
                          let userTruthy := match userP with
                            | .ok j => jsTruthyJson j
                            | _ => false
                          if options.requireUser && !userTruthy then
                            .err .INVALID_PAYLOAD "user field is required but missing"
                          else
                            let canSendAfter : Option Int :=
                              match paramsGet params "can_send_after" with
                              | some r => if r = "" then none else parseJsInt r
                              | none => none
                            .ok {
                              query_id := jsStrOrUndef (paramsGet params "query_id")
                              user := match userP with
                                | .ok j => if jsTruthyJson j then some j else none
                                | _ => none
                              receiver := match receiverP with
                                | .ok j => if jsTruthyJson j then some j else none
                                | _ => none
                              chat := match chatP with
                                | .ok j => if jsTruthyJson j then some j else none
                                | _ => none
                              chat_type := jsStrOrUndef (paramsGet params "chat_type")
                              chat_instance := jsStrOrUndef (paramsGet params "chat_instance")
                              start_param := jsStrOrUndef (paramsGet params "start_param")
                              can_send_after := canSendAfter
                              auth_date := authDate
                              hash := hash
                              dataCheckString := dataCheckString
                              raw := rawString
                              rawParams := rawParams }

/-- Mini-app validation rule as the specification words it for Source B: the
object exposes a version string AND ((it has non-empty init data) OR (it
reports a recognized platform AND a color scheme)). -/
def validateTelegramWebAppSpec (w : WebApp) : Bool :=
  jsTruthyS w.version &&
    (jsTruthyS w.initData ||
      (match w.initDataUnsafe with | some keys => keys > 0 | none => false) ||
      ((match w.platform with | some p => p ≠ "" && p ≠ "unknown" | none => false) &&
        jsTruthyS w.colorScheme))

/-- Canonical check-string as the specification words it: all fields except
hash, each rendered as key=value, sorted lexicographically ascending, joined
with newline. -/
def canonicalCheckString (entries : List (String × String)) : String :=
  String.intercalate "\n"
    (sortStrings ((entries.filter fun kv => kv.1 ≠ "hash").map fun kv => kv.1 ++ "=" ++ kv.2))

/-- Bridge object with a version and non-empty init data but no platform and
no color scheme: accepted by the spec's Source B rule, rejected by the
code. -/
def c1CexWebApp : WebApp :=
  { version := some "7.0", initData := some "query_id=abc" }

/-- C7: MacIntel platform with more than one touch point forces os = ios and
device = tablet for every user agent, and any user agent containing an
iphone/ipad/ipod token yields os = ios for every platform string, touch
count and window state. -/
theorem detectOS_detectDevice_ipad_rules :
    (∀ (ua : String) (tp width : Nat), 1 < tp →
      detectOS true "MacIntel" tp ua = OSType.ios ∧
      detectDevice true "MacIntel" tp width ua (detectOS true "MacIntel" tp ua) =
        DeviceType.tablet) ∧
    (∀ (ua navPlatform : String) (tp : Nat) (hw : Bool),
      (containsStr (strToLower ua) "iphone" || containsStr (strToLower ua) "ipad" ||
        containsStr (strToLower ua) "ipod") = true →
      detectOS hw navPlatform tp ua = OSType.ios) := by
  constructor
  · intro ua tp width htp
    have hos : detectOS true "MacIntel" tp ua = OSType.ios := by
      unfold detectOS
      split_ifs with h1 h2 <;> simp_all
    refine ⟨hos, ?_⟩
    rw [hos]
    unfold detectDevice
    simp only [if_pos rfl]
    split_ifs with h1 <;> simp_all
  · intro ua navPlatform tp hw h
    unfold detectOS
    simp [h]

/-- C7 witness: a desktop macOS Safari user agent on a MacIntel platform with
two touch points classifies as an iOS tablet, and an iPhone user agent
classifies as iOS under an arbitrary platform string. -/
theorem detectOS_detectDevice_ipad_rules_witness :
    (detectOS true "MacIntel" 2
        "Mozilla/5.0 (Macintosh; Intel Mac OS X 10_15_7) AppleWebKit/605.1.15" = OSType.ios ∧
      detectDevice true "MacIntel" 2 1024
        "Mozilla/5.0 (Macintosh; Intel Mac OS X 10_15_7) AppleWebKit/605.1.15"
        (detectOS true "MacIntel" 2
          "Mozilla/5.0 (Macintosh; Intel Mac OS X 10_15_7) AppleWebKit/605.1.15") =
        DeviceType.tablet) ∧
    detectOS false "Win32" 0 "Mozilla/5.0 (iPhone; CPU iPhone OS 17_0 like Mac OS X)" =
      OSType.ios := by
  refine ⟨detectOS_detectDevice_ipad_rules.1 _ 2 1024 (by decide), ?_⟩
  exact detectOS_detectDevice_ipad_rules.2 _ "Win32" 0 false (by decide)

/-- C1 counterexample: a bridge object with a version string and non-empty
init data but no color scheme (and no platform) satisfies the claimed
acceptance rule but is rejected by validateTelegramWebApp, which requires a
recognized platform and a color scheme in both branches. -/
theorem validateTelegramWebApp_initData_not_sufficient :
    validateTelegramWebAppSpec c1CexWebApp = true ∧
    validateTelegramWebApp c1CexWebApp = false := by decide

/-- C1 amended: for every bridge object, validateTelegramWebApp returns true
exactly when the object exposes a version string AND reports a recognized
platform AND a color scheme; the presence of init data does not change the
outcome. -/
theorem validateTelegramWebApp_iff_platform_and_colorScheme (w : WebApp) :
    validateTelegramWebApp w =
      (jsTruthyS w.version &&
        (match w.platform with | some p => p ≠ "" && p ≠ "unknown" | none => false) &&
        jsTruthyS w.colorScheme) := by
  unfold validateTelegramWebApp
  cases h : jsTruthyS w.version
  · simp [h]
  · simp only [h, Bool.not_true, Bool.false_eq_true, if_false, Bool.true_and, ite_self]

/-- Native verdict used for final classification: wrapper presence AND the
Capacitor runtime flag. -/
def isNativeFinal (env : Env) : Bool :=
  detectNative env &&
    (match getCapacitorInfo env with | some c => c.isNativePlatform | none => false)

/-- Fixed precedence of the priority resolver: native over mini-app over pwa
over web. -/
def resolvePrimaryType (isNative isTelegram isPWA : Bool) : PlatformType :=
  if isNative then .native
  else if isTelegram then .tma
  else if isPWA then .pwa
  else .web

/-- Detection predicates are all false without a window. -/
theorem predicates_false_of_no_window (env : Env) (opts : Options)
    (h : env.hasWindow = false) :
    detectNative env = false ∧ detectTelegram env opts = false ∧
      detectPWA env = false ∧ isNativeFinal env = false := by
  refine ⟨?_, ?_, ?_, ?_⟩ <;>
    simp [detectNative, detectTelegram, detectPWA, isNativeFinal, h]

/-- Primary type of a detection result is the fixed-precedence resolution of
the three presence predicates. -/
theorem performDetection_type (env : Env) (opts : Options) :
    (performDetection env opts).type =
      resolvePrimaryType (isNativeFinal env) (detectTelegram env opts) (detectPWA env) := by
  cases h : env.hasWindow
  · obtain ⟨h1, h2, h3, h4⟩ := predicates_false_of_no_window env opts h
    simp [performDetection, h, createServerSideInfo, resolvePrimaryType, h2, h3, h4]
  · simp [performDetection, h, resolvePrimaryType, isNativeFinal]

/-- isNative field of a detection result equals presence AND runtime flag. -/
theorem performDetection_isNative (env : Env) (opts : Options) :
    (performDetection env opts).isNative = isNativeFinal env := by
  cases h : env.hasWindow
  · obtain ⟨h1, h2, h3, h4⟩ := predicates_false_of_no_window env opts h
    simp [performDetection, h, createServerSideInfo, h4]
  · simp [performDetection, h, isNativeFinal]

/-- isTelegram field of a detection result equals the mini-app presence
predicate. -/
theorem performDetection_isTelegram (env : Env) (opts : Options) :
    (performDetection env opts).isTelegram = detectTelegram env opts := by
  cases h : env.hasWindow
  · obtain ⟨h1, h2, h3, h4⟩ := predicates_false_of_no_window env opts h
    simp [performDetection, h, createServerSideInfo, h2]
  · simp [performDetection, h]

/-- isWeb field of a detection result equals NOT native AND NOT telegram. -/
theorem performDetection_isWeb (env : Env) (opts : Options) :
    (performDetection env opts).isWeb =
      (!(isNativeFinal env) && !(detectTelegram env opts)) := by
  cases h : env.hasWindow
  · obtain ⟨h1, h2, h3, h4⟩ := predicates_false_of_no_window env opts h
    simp [performDetection, h, createServerSideInfo, h2, h4]
  · simp [performDetection, h, isNativeFinal]

/-- C4: the resolver assigns the primary type by the fixed precedence
native over mini-app over pwa over web, with native meaning presence AND the
Capacitor runtime flag; and whenever a higher-priority predicate holds in two
configurations (all strictly higher ones holding in neither), the primary
type coincides, so no change to lower-priority evidence can alter it. -/
theorem priorityResolver_precedence (e1 e2 : Env) (o1 o2 : Options) :
    ((performDetection e1 o1).type =
      resolvePrimaryType (isNativeFinal e1) (detectTelegram e1 o1) (detectPWA e1)) ∧
    ((performDetection e1 o1).isNative =
      (detectNative e1 &&
        (match getCapacitorInfo e1 with | some c => c.isNativePlatform | none => false))) ∧
    (isNativeFinal e1 = true → isNativeFinal e2 = true →
      (performDetection e1 o1).type = (performDetection e2 o2).type) ∧
    (isNativeFinal e1 = false → isNativeFinal e2 = false →
      detectTelegram e1 o1 = true → detectTelegram e2 o2 = true →
      (performDetection e1 o1).type = (performDetection e2 o2).type) ∧
    (isNativeFinal e1 = false → isNativeFinal e2 = false →
      detectTelegram e1 o1 = false → detectTelegram e2 o2 = false →
      detectPWA e1 = true → detectPWA e2 = true →
      (performDetection e1 o1).type = (performDetection e2 o2).type) := by
  refine ⟨performDetection_type e1 o1, performDetection_isNative e1 o1, ?_, ?_, ?_⟩
  · intro h1 h2
    rw [performDetection_type, performDetection_type, h1, h2]
    simp [resolvePrimaryType]
  · intro h1 h2 h3 h4
    rw [performDetection_type, performDetection_type, h1, h2, h3, h4]
    simp [resolvePrimaryType]
  · intro h1 h2 h3 h4 h5 h6
    rw [performDetection_type, performDetection_type, h1, h2, h3, h4, h5, h6]

/-- Environment hosting a Capacitor native runtime, used to instantiate the
precedence theorem. -/
def c4Env1 : Env :=
  { hasWindow := true, hasCapacitor := true, capacitorIsNativePlatform := some true }

/-- Same native runtime with mini-app and PWA evidence flipped on. -/
def c4Env2 : Env :=
  { hasWindow := true, hasCapacitor := true, capacitorIsNativePlatform := some true,
    tmaJsViaTelegram := true, dmStandalone := true }

/-- C4 witness: with the native predicate true in both environments, turning
on mini-app and PWA evidence does not change the primary type. -/
theorem priorityResolver_precedence_witness :
    (performDetection c4Env1 {}).type = (performDetection c4Env2 {}).type :=
  (priorityResolver_precedence c4Env1 c4Env2 {} {}).2.2.1 (by decide) (by decide)

/-- C10: when the Capacitor global is absent, no Capacitor enrichment record
is produced, so even with a legacy Cordova or PhoneGap global present the
result has isNative = false and the primary type is never native. -/
theorem legacy_globals_not_native (env : Env) (opts : Options)
    (hcap : env.hasCapacitor = false)
    (hleg : env.hasCordova = true ∨ env.hasPhonegap = true) :
    getCapacitorInfo env = none ∧
    (performDetection env opts).isNative = false ∧
    (performDetection env opts).type ≠ PlatformType.native := by
  have hinfo : getCapacitorInfo env = none := by
    simp [getCapacitorInfo, hcap]
  have hn : isNativeFinal env = false := by
    simp [isNativeFinal, hinfo]
  refine ⟨hinfo, ?_, ?_⟩
  · rw [performDetection_isNative]; exact hn
  · rw [performDetection_type, hn]
    unfold resolvePrimaryType
    split_ifs <;> simp_all

/-- Environment with only the legacy Cordova global. -/
def c10Env : Env := { hasWindow := true, hasCordova := true }

/-- C10 witness: a Cordova-only environment yields no Capacitor record, a
non-native verdict, and a non-native primary type. -/
theorem legacy_globals_not_native_witness :
    getCapacitorInfo c10Env = none ∧
    (performDetection c10Env {}).isNative = false ∧
    (performDetection c10Env {}).type ≠ PlatformType.native :=
  legacy_globals_not_native c10Env {} (by decide) (Or.inl (by decide))

/-- Environment used to exhibit the cacheTTL = 0 behaviour (a server-side
render keeps the cache logic identical while the detection payload is the
conservative default record). -/
def c2Env : Env := { hasWindow := false }

/-- Detector options requesting cacheTTL 0, documented as disabling the
cache. -/
def c2Opts : Options := { cacheTTL := 0 }

/-- C2: with cacheTTL configured to 0 a second detect() call one millisecond
after the first returns the identical cached object (same allocation id) and
leaves the state untouched, because the source computes the effective TTL as
cacheTTL-or-5000, so 0 falls back to 5000 instead of disabling caching. -/
theorem cacheTTL_zero_still_caches :
    (detectCall c2Env (detectCall c2Env (mkDetector c2Opts) 1000).2 1001).1 =
      (detectCall c2Env (mkDetector c2Opts) 1000).1 ∧
    (detectCall c2Env (detectCall c2Env (mkDetector c2Opts) 1000).2 1001).2 =
      (detectCall c2Env (mkDetector c2Opts) 1000).2 := by
  decide

/-- Hostnames starting with 'app.' cannot start with 'tg.'. -/
theorem app_tg_prefixes_disjoint (h : String)
    (ha : strStartsWith h "app." = true) : strStartsWith h "tg." = false := by
  unfold strStartsWith at ha ⊢
  cases hl : h.toList with
  | nil => rw [hl] at ha; exact absurd ha (by decide)
  | cons c rest =>
    rw [hl] at ha
    rw [show ("app.".toList) = ['a', 'p', 'p', '.'] from rfl] at ha
    simp only [startsWithChars, Bool.and_eq_true, decide_eq_true_eq] at ha
    rw [show ("tg.".toList) = ['t', 'g', '.'] from rfl]
    simp [startsWithChars, ← ha.1]

/-- Domain mode is the messaging-specific mode exactly when the hostname
starts with 'tg.'. -/
theorem detectDomainMode_tma_iff (h : String) :
    detectDomainMode h = DomainMode.tma ↔ strStartsWith h "tg." = true := by
  unfold detectDomainMode
  by_cases ha : strStartsWith h "app." = true
  · have htg := app_tg_prefixes_disjoint h ha
    simp [ha, htg]
  · simp only [Bool.not_eq_true] at ha
    by_cases ht : strStartsWith h "tg." = true
    · simp [ha, ht]
    · simp only [Bool.not_eq_true] at ht
      simp [ha, ht]

/-- The warning flag of a detection result is exactly messaging domain mode
AND NOT mini-app presence. -/
theorem performDetection_warning (env : Env) (opts : Options)
    (h : env.hasWindow = true) :
    (performDetection env opts).shouldShowTMAWarning =
      (decide (detectDomainMode (jsOrS opts.hostname env.hostname) = DomainMode.tma) &&
        !detectTelegram env opts) := by
  simp [performDetection, h]

/-- C8: on a messaging-specific hostname (one starting with 'tg.') without
mini-app presence the result raises shouldShowTMAWarning, and only then; and
when mini-app presence is false the availability helper produces the
deep-link https://t.me/<bot>?start=<encodeURIComponent(current location)>
with the location percent-encoded exactly once under the query parameter
named start. -/
theorem tma_warning_and_deeplink :
    (∀ (env : Env) (opts : Options), env.hasWindow = true →
      (performDetection env opts).shouldShowTMAWarning =
        (decide (detectDomainMode (jsOrS opts.hostname env.hostname) = DomainMode.tma) &&
          !detectTelegram env opts)) ∧
    (∀ h : String, detectDomainMode h = DomainMode.tma ↔ strStartsWith h "tg." = true) ∧
    (∀ (env : Env) (opts : Options) (bot : String), env.hasWindow = true →
      detectTelegram env opts = false →
      checkTMAAvailability env opts bot =
        { isAvailable := false
          reason := some "Not running in Telegram Mini App environment"
          botUrl := some ("https://t.me/" ++ bot ++ "?start=" ++
            encodeURIComponent env.href) }) := by
  refine ⟨performDetection_warning, detectDomainMode_tma_iff, ?_⟩
  intro env opts bot hw htg
  unfold checkTMAAvailability
  rw [htg]
  simp [hw]

/-- Messaging-subdomain environment outside Telegram used to instantiate the
warning/deep-link theorem. -/
def c8Env : Env :=
  { hasWindow := true, hostname := "tg.example.com",
    href := "https://tg.example.com/page?x=1",
    userAgent := "Mozilla/5.0 (Windows NT 10.0; Win64; x64)" }

/-- C8 witness: on tg.example.com outside Telegram the warning flag is true
and the generated deep-link carries the once-encoded current location under
the start parameter. -/
theorem tma_warning_and_deeplink_witness :
    (performDetection c8Env {}).shouldShowTMAWarning = true ∧
    checkTMAAvailability c8Env {} "mybot" =
      { isAvailable := false
        reason := some "Not running in Telegram Mini App environment"
        botUrl := some "https://t.me/mybot?start=https%3A%2F%2Ftg.example.com%2Fpage%3Fx%3D1" } := by
  constructor
  · rw [tma_warning_and_deeplink.1 c8Env {} rfl]
    decide
  · rw [tma_warning_and_deeplink.2.2 c8Env {} "mybot" rfl (by decide)]
    decide

/-- The Telegram platform override keeps the mobile flag consistent with the
final device: starting from the flag device-is-mobile-or-tablet, the pair it
returns still satisfies that relation. -/
theorem override_mobile_iff (tgp : Option String) (device : DeviceType) (os : OSType) :
    ((telegramPlatformOverride tgp device
        (device = DeviceType.mobile || device = DeviceType.tablet) os).2.1 = true ↔
      ((telegramPlatformOverride tgp device
          (device = DeviceType.mobile || device = DeviceType.tablet) os).1 = DeviceType.mobile ∨
        (telegramPlatformOverride tgp device
          (device = DeviceType.mobile || device = DeviceType.tablet) os).1 = DeviceType.tablet)) := by
  cases tgp with
  | none => cases device <;> simp [telegramPlatformOverride]
  | some p =>
    cases device <;>
      · unfold telegramPlatformOverride
        by_cases h1 : ((p = "ios" ∨ p = "android") ∨ p = "android_x") <;>
          by_cases h2 : (p = "macos" ∨ p = "tdesktop") <;>
            simp [h1, h2]

/-- Final device/mobile-flag/OS triple of the windowed detection path, as the
pipeline computes it before assembling the result record. -/
def detectorFinalTriple (env : Env) (opts : Options) : DeviceType × Bool × OSType :=
  let userAgent := jsOrS opts.userAgent env.userAgent
  let os := detectOS env.hasWindow env.navPlatform env.maxTouchPoints userAgent
  let device := detectDevice env.hasWindow env.navPlatform env.maxTouchPoints
    env.innerWidth userAgent os
  let isTelegram := detectTelegram env opts
  let telegram := getTelegramInfo env opts
  let tgPlatform : Option String :=
    if isTelegram then
      match telegram with
      | some t => if t.platform ≠ "" then some t.platform else none
      | none => none
    else none
  telegramPlatformOverride tgPlatform device
    (device = DeviceType.mobile || device = DeviceType.tablet) os

/-- Field projections of a windowed detection result in terms of the final
triple. -/
theorem performDetection_fields (env : Env) (opts : Options)
    (h : env.hasWindow = true) :
    (performDetection env opts).device = (detectorFinalTriple env opts).1 ∧
    (performDetection env opts).isMobile = (detectorFinalTriple env opts).2.1 ∧
    (performDetection env opts).isDesktop = !(detectorFinalTriple env opts).2.1 ∧
    (performDetection env opts).os = (detectorFinalTriple env opts).2.2 ∧
    (performDetection env opts).isIOS =
      decide ((detectorFinalTriple env opts).2.2 = OSType.ios) ∧
    (performDetection env opts).isAndroid =
      decide ((detectorFinalTriple env opts).2.2 = OSType.android) ∧
    (performDetection env opts).isMacOS =
      decide ((detectorFinalTriple env opts).2.2 = OSType.macos) ∧
    (performDetection env opts).isWindows =
      decide ((detectorFinalTriple env opts).2.2 = OSType.windows) ∧
    (performDetection env opts).isLinux =
      decide ((detectorFinalTriple env opts).2.2 = OSType.linux) ∧
    (performDetection env opts).isChromeOS =
      decide ((detectorFinalTriple env opts).2.2 = OSType.chromeos) := by
  refine ⟨?_, ?_, ?_, ?_, ?_, ?_, ?_, ?_, ?_, ?_⟩ <;>
    simp [performDetection, detectorFinalTriple, h]

/-- PWA environment on a desktop browser: standalone display mode matches,
nothing else. -/
def c3Env : Env :=
  { hasWindow := true, dmStandalone := true,
    userAgent := "Mozilla/5.0 (Windows NT 10.0; Win64; x64)" }

/-- Environment whose base detection is an iPhone, with client hints
supported. -/
def c3AsyncEnv : Env :=
  { hasWindow := true, clientHintsSupported := true,
    userAgent := "Mozilla/5.0 (iPhone; CPU iPhone OS 17_0 like Mac OS X)" }

/-- C3 counterexample: a PWA result has isWeb = true while primaryType is
pwa, so isWeb is not true exactly when primaryType is web; and the async
client-hints merge can leave isMobile and isDesktop both true while device
is desktop, so isDesktop is not the negation of isMobile for detectAsync
results. -/
theorem derived_booleans_claim_false :
    ((performDetection c3Env {}).type = PlatformType.pwa ∧
      (performDetection c3Env {}).isWeb = true) ∧
    ((detectAsyncResult c3AsyncEnv { useClientHints := true }
        (performDetection c3AsyncEnv { useClientHints := true })
        (some { device := some DeviceType.desktop })).device = DeviceType.desktop ∧
      (detectAsyncResult c3AsyncEnv { useClientHints := true }
        (performDetection c3AsyncEnv { useClientHints := true })
        (some { device := some DeviceType.desktop })).isMobile = true ∧
      (detectAsyncResult c3AsyncEnv { useClientHints := true }
        (performDetection c3AsyncEnv { useClientHints := true })
        (some { device := some DeviceType.desktop })).isDesktop = true) := by
  decide

/-- C3 amended: for every synchronous detection result, isWeb holds exactly
when the primary type is web or pwa (it is NOT-native AND NOT-telegram),
isMobile holds exactly when the device is mobile or tablet, isDesktop is the
negation of isMobile, and each OS boolean equals the corresponding os test;
the async client-hints merge does not preserve the isMobile/isDesktop
relation. -/
theorem performDetection_derived_booleans (env : Env) (opts : Options) :
    ((performDetection env opts).isWeb = true ↔
      ((performDetection env opts).type = PlatformType.web ∨
        (performDetection env opts).type = PlatformType.pwa)) ∧
    ((performDetection env opts).isMobile = true ↔
      ((performDetection env opts).device = DeviceType.mobile ∨
        (performDetection env opts).device = DeviceType.tablet)) ∧
    ((performDetection env opts).isDesktop = !(performDetection env opts).isMobile) ∧
    ((performDetection env opts).isIOS = true ↔ (performDetection env opts).os = OSType.ios) ∧
    ((performDetection env opts).isAndroid = true ↔
      (performDetection env opts).os = OSType.android) ∧
    ((performDetection env opts).isMacOS = true ↔
      (performDetection env opts).os = OSType.macos) ∧
    ((performDetection env opts).isWindows = true ↔
      (performDetection env opts).os = OSType.windows) ∧
    ((performDetection env opts).isLinux = true ↔
      (performDetection env opts).os = OSType.linux) ∧
    ((performDetection env opts).isChromeOS = true ↔
      (performDetection env opts).os = OSType.chromeos) := by
  cases h : env.hasWindow
  · simp [performDetection, h, createServerSideInfo]
  · obtain ⟨hd, hm, hdes, hos, hios, hand, hmac, hwin, hlin, hchr⟩ :=
      performDetection_fields env opts h
    refine ⟨?_, ?_, ?_, ?_, ?_, ?_, ?_, ?_, ?_⟩
    · rw [performDetection_isWeb, performDetection_type]
      cases isNativeFinal env <;> cases detectTelegram env opts <;>
        cases detectPWA env <;> simp [resolvePrimaryType]
    · rw [hm, hd]
      simp only [detectorFinalTriple]
      exact override_mobile_iff _ _ _
    · rw [hdes, hm]
    · rw [hios, hos]; simp
    · rw [hand, hos]; simp
    · rw [hmac, hos]; simp
    · rw [hwin, hos]; simp
    · rw [hlin, hos]; simp
    · rw [hchr, hos]; simp

/-- C9: the verifier is total: every input yields a structured ok/err result
from the typed code set; an empty or absent payload yields MISSING_INIT_DATA
even when the secret is also empty; an empty secret with a non-empty payload
yields MISSING_BOT_TOKEN; a payload without a hash field yields MISSING_HASH;
and crypto-primitive unavailability yields CRYPTO_UNAVAILABLE instead of a
thrown exception. -/
theorem verify_error_paths (hm : Option (List Nat → List Nat → List Nat))
    (jp : String → Option Json) (nowClock : Int)
    (payload : Option String) (botToken : Option String) (opts : VerifyOptions) :
    ((∃ d, verifyTelegramInitData hm jp nowClock payload botToken opts = .ok d) ∨
      (∃ c m, verifyTelegramInitData hm jp nowClock payload botToken opts = .err c m)) ∧
    ((payload = none ∨ ∃ s, payload = some s ∧ jsTrim s = "") →
      verifyTelegramInitData hm jp nowClock payload botToken opts =
        .err .MISSING_INIT_DATA "initData payload is required") ∧
    (∀ s, payload = some s → jsTrim s ≠ "" →
      (botToken = none ∨ botToken = some "") →
      verifyTelegramInitData hm jp nowClock payload botToken opts =
        .err .MISSING_BOT_TOKEN "Telegram bot token is required") ∧
    (∀ s tok, payload = some s → jsTrim s ≠ "" → botToken = some tok → tok ≠ "" →
      paramsGet (parseQuery (stripQuery (jsTrim s))) "hash" = none →
      verifyTelegramInitData hm jp nowClock payload botToken opts =
        .err .MISSING_HASH "hash parameter is required in initData") ∧
    (∀ s tok h, payload = some s → jsTrim s ≠ "" → botToken = some tok → tok ≠ "" →
      paramsGet (parseQuery (stripQuery (jsTrim s))) "hash" = some h → h ≠ "" →
      hm = none →
      verifyTelegramInitData hm jp nowClock payload botToken opts =
        .err .CRYPTO_UNAVAILABLE
          "Web Crypto API (crypto.subtle) is not available in this environment") := by
  refine ⟨?_, ?_, ?_, ?_, ?_⟩
  · cases hres : verifyTelegramInitData hm jp nowClock payload botToken opts with
    | ok d => exact Or.inl ⟨d, rfl⟩
    | err c m => exact Or.inr ⟨c, m, rfl⟩
  · rintro (rfl | ⟨s, rfl, hs⟩)
    · rfl
    · simp [verifyTelegramInitData, hs]
  · rintro s rfl hs (rfl | rfl) <;> simp [verifyTelegramInitData, hs]
  · rintro s tok rfl hs rfl htok hhash
    simp [verifyTelegramInitData, hs, htok, hhash]
  · rintro s tok h rfl hs rfl htok hhash hhne rfl
    simp [verifyTelegramInitData, hs, htok, hhash, hhne]

/-- C9 witness: concrete inputs exercising each error path in order. -/
theorem verify_error_paths_witness :
    verifyTelegramInitData none (fun _ => none) 0 none none {} =
      .err .MISSING_INIT_DATA "initData payload is required" ∧
    verifyTelegramInitData none (fun _ => none) 0 (some "auth_date=1") none {} =
      .err .MISSING_BOT_TOKEN "Telegram bot token is required" ∧
    verifyTelegramInitData none (fun _ => none) 0 (some "auth_date=1") (some "tok") {} =
      .err .MISSING_HASH "hash parameter is required in initData" ∧
    verifyTelegramInitData none (fun _ => none) 0 (some "auth_date=1&hash=ab") (some "tok") {} =
      .err .CRYPTO_UNAVAILABLE
        "Web Crypto API (crypto.subtle) is not available in this environment" := by
  refine ⟨(verify_error_paths none (fun _ => none) 0 none none {}).2.1 (Or.inl rfl),
    (verify_error_paths none (fun _ => none) 0 (some "auth_date=1") none {}).2.2.1
      "auth_date=1" rfl (by decide) (Or.inl rfl),
    (verify_error_paths none (fun _ => none) 0 (some "auth_date=1") (some "tok") {}).2.2.2.1
      "auth_date=1" "tok" rfl (by decide) rfl (by decide) (by decide),
    (verify_error_paths none (fun _ => none) 0 (some "auth_date=1&hash=ab") (some "tok")
        {}).2.2.2.2
      "auth_date=1&hash=ab" "tok" "ab" rfl (by decide) rfl (by decide) (by decide)
      (by decide) rfl⟩

/-- C5: with the payload past the hash check (payload, token, hash present
and the recomputed signature matching), the verifier enforces freshness
exactly as specified: a positive maxAge with now - auth_date beyond it gives
EXPIRED; the boundary now - auth_date = maxAge is accepted; maxAgeSeconds 0
disables the expiry check; and an auth_date more than 60 seconds in the
future gives INVALID_AUTH_DATE. -/
theorem verify_freshness (f : List Nat → List Nat → List Nat)
    (jp : String → Option Json) (nowClock : Int) (s tok h ar : String) (a : Int)
    (opts : VerifyOptions)
    (hs : jsTrim s ≠ "") (htok : tok ≠ "")
    (hh : paramsGet (parseQuery (stripQuery (jsTrim s))) "hash" = some h)
    (hhne : h ≠ "")
    (hmatch : bytesToHex (f (f (utf8Bytes "WebAppData") (utf8Bytes tok))
        (utf8Bytes (dataCheckStringOf (parseQuery (stripQuery (jsTrim s)))))) =
      strToLower h)
    (har : paramsGet (parseQuery (stripQuery (jsTrim s))) "auth_date" = some ar)
    (harne : ar ≠ "") (hparse : parseJsInt ar = some a) :
    (opts.maxAgeSeconds.getD 600 > 0 →
      opts.currentTimestamp.getD nowClock - a > opts.maxAgeSeconds.getD 600 →
      verifyTelegramInitData (some f) jp nowClock (some s) (some tok) opts =
        .err .EXPIRED "initData is expired") ∧
    (0 ≤ opts.maxAgeSeconds.getD 600 →
      opts.currentTimestamp.getD nowClock - a = opts.maxAgeSeconds.getD 600 →
      errorCodeOf (verifyTelegramInitData (some f) jp nowClock (some s) (some tok) opts) ≠
          some .EXPIRED ∧
        errorCodeOf (verifyTelegramInitData (some f) jp nowClock (some s) (some tok) opts) ≠
          some .INVALID_AUTH_DATE) ∧
    (opts.maxAgeSeconds = some 0 →
      errorCodeOf (verifyTelegramInitData (some f) jp nowClock (some s) (some tok) opts) ≠
        some .EXPIRED) ∧
    (0 ≤ opts.maxAgeSeconds.getD 600 →
      a - opts.currentTimestamp.getD nowClock > 60 →
      verifyTelegramInitData (some f) jp nowClock (some s) (some tok) opts =
        .err .INVALID_AUTH_DATE "auth_date is more than 60 seconds in the future") := by
  refine ⟨?_, ?_, ?_, ?_⟩
  · intro hmx hexp
    simp [verifyTelegramInitData, hs, hh, hhne, htok, hmatch, timingSafeEqual, har, harne,
      hparse, hmx, hexp]
  · intro h0 hbd
    have hnotexp : ¬(opts.currentTimestamp.getD nowClock - a > opts.maxAgeSeconds.getD 600) := by
      omega
    have hnotfut : ¬(a - opts.currentTimestamp.getD nowClock > 60) := by omega
    simp [verifyTelegramInitData, hs, hh, hhne, htok, hmatch, timingSafeEqual, har,
      harne, hparse, hnotexp, hnotfut]
    cases parseJsonField jp (paramsGet (parseQuery (stripQuery (jsTrim s))) "user") <;>
      cases parseJsonField jp (paramsGet (parseQuery (stripQuery (jsTrim s))) "receiver") <;>
        cases parseJsonField jp (paramsGet (parseQuery (stripQuery (jsTrim s))) "chat") <;>
          simp [errorCodeOf] <;> split_ifs <;> simp [errorCodeOf]
  · intro h0
    have hnotexp : ¬(opts.maxAgeSeconds.getD 600 > 0) := by simp [h0]
    simp [verifyTelegramInitData, hs, hh, hhne, htok, hmatch, timingSafeEqual, har, harne,
      hparse, hnotexp]
    by_cases hfut : a - opts.currentTimestamp.getD nowClock > 60
    · simp [hfut, errorCodeOf]
    · simp [hfut]
      cases parseJsonField jp (paramsGet (parseQuery (stripQuery (jsTrim s))) "user") <;>
        cases parseJsonField jp (paramsGet (parseQuery (stripQuery (jsTrim s))) "receiver") <;>
          cases parseJsonField jp (paramsGet (parseQuery (stripQuery (jsTrim s))) "chat") <;>
            simp [errorCodeOf] <;> split_ifs <;> simp [errorCodeOf]
  · intro h0 hfut
    have hnotexp : ¬(opts.currentTimestamp.getD nowClock - a > opts.maxAgeSeconds.getD 600) := by
      omega
    simp [verifyTelegramInitData, hs, hh, hhne, htok, hmatch, timingSafeEqual, har, harne,
      hparse, hnotexp, hfut]

/-- C5 witness: under a constant stand-in HMAC whose digest is the byte 0x00,
the payload auth_date=900&hash=00 verified at time 2000 with the default
maxAge 600 is expired. -/
theorem verify_freshness_witness :
    verifyTelegramInitData (some fun _ _ => [0]) (fun _ => none) 0
      (some "auth_date=900&hash=00") (some "t") { currentTimestamp := some 2000 } =
      .err .EXPIRED "initData is expired" :=
  (verify_freshness (fun _ _ => [0]) (fun _ => none) 0 "auth_date=900&hash=00" "t"
    "00" "900" 900 { currentTimestamp := some 2000 }
    (by decide) (by decide) (by decide) (by decide) (by decide) (by decide)
    (by decide) (by decide)).1 (by decide) (by decide)

/-- C6: round-trip of the verifier: for every HMAC primitive, non-empty
secret and fresh well-formed payload whose hash field equals the two-stage
HMAC-SHA256 derivation (inner stage keyed by the WebAppData label over the
secret, outer stage keyed by the derived key over the check-string) of the
sorted newline-joined check-string of all non-hash fields, verification
succeeds with data.auth_date the payload's auth_date, data.raw the original
input string, and data.dataCheckString the canonical check-string. -/
theorem verify_roundtrip (f : List Nat → List Nat → List Nat)
    (jp : String → Option Json) (nowClock : Int) (s tok h ar : String) (a : Int)
    (opts : VerifyOptions)
    (hraw : jsTrim s = s) (hs : s ≠ "") (htok : tok ≠ "")
    (hh : paramsGet (parseQuery (stripQuery s)) "hash" = some h) (hhne : h ≠ "")
    (hmatch : bytesToHex (f (f (utf8Bytes "WebAppData") (utf8Bytes tok))
        (utf8Bytes (dataCheckStringOf (parseQuery (stripQuery s))))) = strToLower h)
    (har : paramsGet (parseQuery (stripQuery s)) "auth_date" = some ar)
    (harne : ar ≠ "") (hparse : parseJsInt ar = some a)
    (hfresh : ¬(opts.maxAgeSeconds.getD 600 > 0 ∧
        opts.currentTimestamp.getD nowClock - a > opts.maxAgeSeconds.getD 600))
    (hfut : ¬(a - opts.currentTimestamp.getD nowClock > 60))
    (hu : parseJsonField jp (paramsGet (parseQuery (stripQuery s)) "user") ≠ .fail)
    (hr : parseJsonField jp (paramsGet (parseQuery (stripQuery s)) "receiver") ≠ .fail)
    (hc : parseJsonField jp (paramsGet (parseQuery (stripQuery s)) "chat") ≠ .fail)
    (hru : opts.requireUser = false ∨
      (match parseJsonField jp (paramsGet (parseQuery (stripQuery s)) "user") with
        | .ok j => jsTruthyJson j
        | _ => false) = true) :
    ∃ d, verifyTelegramInitData (some f) jp nowClock (some s) (some tok) opts = .ok d ∧
      d.auth_date = a ∧ d.raw = s ∧
      d.dataCheckString = canonicalCheckString (parseQuery (stripQuery s)) ∧
      d.hash = h := by
  have hse : jsTrim s ≠ "" := by rw [hraw]; exact hs
  simp only [verifyTelegramInitData, hraw]
  simp [hse, hh, hhne, htok, hmatch, timingSafeEqual, har, harne, hparse, hfresh, hfut]
  rw [if_neg hs]
  have hcond : ¬(opts.requireUser = true ∧
      (match parseJsonField jp (paramsGet (parseQuery (stripQuery s)) "user") with
        | FieldParse.ok j => jsTruthyJson j
        | _ => false) = false) := by
    rcases hru with h0 | htr
    · rintro ⟨h1, _⟩
      rw [h0] at h1
      exact Bool.false_ne_true h1
    · rintro ⟨_, h2⟩
      rw [htr] at h2
      simp at h2
  rw [if_neg hcond]
  exact ⟨_, rfl, rfl, rfl, rfl, rfl⟩

/-- C6 witness: under a constant stand-in HMAC whose digest is the byte 0xab,
the payload auth_date=1000&hash=ab with secret "secret" verifies at time
1000, returning auth_date 1000, the original raw string, and the canonical
check-string auth_date=1000. -/
theorem verify_roundtrip_witness :
    ∃ d, verifyTelegramInitData (some fun _ _ => [0xab]) (fun _ => none) 0
        (some "auth_date=1000&hash=ab") (some "secret")
        { currentTimestamp := some 1000 } = .ok d ∧
      d.auth_date = 1000 ∧ d.raw = "auth_date=1000&hash=ab" ∧
      d.dataCheckString =
        canonicalCheckString (parseQuery (stripQuery "auth_date=1000&hash=ab")) ∧
      d.hash = "ab" :=
  verify_roundtrip (fun _ _ => [0xab]) (fun _ => none) 0 "auth_date=1000&hash=ab"
    "secret" "ab" "1000" 1000 { currentTimestamp := some 1000 }
    (by decide) (by decide) (by decide) (by decide) (by decide) (by decide)
    (by decide) (by decide) (by decide) (by decide) (by decide)
    (by intro hcon
        exact Bool.noConfusion (show false = true from congrArg FieldParse.isFail hcon))
    (by intro hcon
        exact Bool.noConfusion (show false = true from congrArg FieldParse.isFail hcon))
    (by intro hcon
        exact Bool.noConfusion (show false = true from congrArg FieldParse.isFail hcon))
    (Or.inl rfl)
